import Mathlib

/-!
Verification development for the `hats-agent` component of the wavs-hats
repository.  The definitions below are shallow embeddings of the Rust source
files `src/components/hats-agent/src/{tools.rs, llm.rs, llama.rs, lib.rs}`:

* JSON documents (`serde_json::Value`) are modelled by the inductive `Json`
  with rational numbers in place of `f64`; every number appearing in the
  claims is a small integer, on which `f64` arithmetic and formatting are
  exact and agree with the rational model.
* `serde_json::from_str` is modelled by `parseJson`, a fuel-based
  (structurally recursive, hence kernel-computable) JSON text parser.
* Field order of serialized objects is not modelled (serde_json stores
  objects in a sorted map); all theorems access fields by name.
* The error strings produced by the source embed serde's diagnostic text
  after a fixed prefix (for example "Failed to parse Ollama response: ...");
  the model keeps only the fixed prefix, which is all the claims mention.
* The network layer (`wstd::http`) is outside the embedding: the pure
  request-building and response-parsing phases are modelled directly, and
  the conversation loop of `lib.rs` is modelled over an abstract `Oracle`
  standing for one `chat_completion` network round trip, instrumented with
  the trace of requests it issues.
-/

deriving instance DecidableEq for Except

/-- Model of `serde_json::Value`.  Objects are association lists; duplicate
keys are collapsed on construction (`insertField`), matching the last-wins
behaviour of serde_json's object map. -/
inductive Json where
  | null : Json
  | bool : Bool → Json
  | num : ℚ → Json
  | str : String → Json
  | arr : List Json → Json
  | obj : List (String × Json) → Json

/-- The left-brace character, written via its code point. -/
def lbraceChar : Char := Char.ofNat 123

/-- The right-brace character, written via its code point. -/
def rbraceChar : Char := Char.ofNat 125

/-- JSON insignificant whitespace (RFC 8259). -/
def jsonWs (c : Char) : Bool :=
  c = ' ' || c = '\n' || c = '\t' || c = '\r'

/-- Drop leading JSON whitespace. -/
def skipWs : List Char → List Char
  | [] => []
  | c :: rest => if jsonWs c then skipWs rest else c :: rest

/-- Value of a hexadecimal digit. -/
def hexVal (c : Char) : Option Nat :=
  if '0' ≤ c ∧ c ≤ '9' then some (c.toNat - 48)
  else if 'a' ≤ c ∧ c ≤ 'f' then some (c.toNat - 87)
  else if 'A' ≤ c ∧ c ≤ 'F' then some (c.toNat - 55)
  else none

/-- Value of a decimal digit. -/
def digitVal (c : Char) : Option Nat :=
  if '0' ≤ c ∧ c ≤ '9' then some (c.toNat - 48) else none

/-- Parse the body of a JSON string literal (after the opening quote),
returning the decoded characters and the input following the closing
quote.  Handles the escape sequences of RFC 8259 and rejects raw control
characters. -/
def parseStringRest : Nat → List Char → Option (List Char × List Char)
  | 0, _ => none
  | Nat.succ _, [] => none
  | Nat.succ fuel, c :: rest =>
    if c = '"' then some ([], rest)
    else if c = '\\' then
      match rest with
      | [] => none
      | e :: rest2 =>
        if e = 'u' then
          match rest2 with
          | h1 :: h2 :: h3 :: h4 :: rest3 =>
            match hexVal h1, hexVal h2, hexVal h3, hexVal h4 with
            | some a, some b, some c2, some d =>
              match parseStringRest fuel rest3 with
              | some (s, r) => some (Char.ofNat (((a * 16 + b) * 16 + c2) * 16 + d) :: s, r)
              | none => none
            | _, _, _, _ => none
          | _ => none
        else
          match
            (if e = '"' then some '"'
             else if e = '\\' then some '\\'
             else if e = '/' then some '/'
             else if e = 'b' then some (Char.ofNat 8)
             else if e = 'f' then some (Char.ofNat 12)
             else if e = 'n' then some '\n'
             else if e = 'r' then some '\r'
             else if e = 't' then some '\t'
             else none) with
          | some ch =>
            match parseStringRest fuel rest2 with
            | some (s, r) => some (ch :: s, r)
            | none => none
          | none => none
    else if c.toNat < 32 then none
    else
      match parseStringRest fuel rest with
      | some (s, r) => some (c :: s, r)
      | none => none

/-- Accumulate a run of decimal digits, returning the value, the number of
digits consumed, and the rest of the input. -/
def parseDigitsAux : List Char → Nat → Nat → Nat × Nat × List Char
  | [], acc, n => (acc, n, [])
  | c :: rest, acc, n =>
    match digitVal c with
    | some d => parseDigitsAux rest (acc * 10 + d) (n + 1)
    | none => (acc, n, c :: rest)

/-- Ten to a natural power, as a rational (structurally recursive so that it
kernel-reduces). -/
def pow10 : Nat → ℚ
  | 0 => 1
  | n + 1 => 10 * pow10 n

/-- Parse the fractional part of a JSON number (input starts after the
decimal point); at least one digit is required. -/
def parseFrac (cs : List Char) : Option (ℚ × List Char) :=
  match parseDigitsAux cs 0 0 with
  | (f, n, rest) => if n = 0 then none else some ((f : ℚ) / pow10 n, rest)

/-- Parse the exponent part of a JSON number (input starts after `e`/`E`);
at least one digit is required. -/
def parseExp (cs : List Char) : Option (Int × List Char) :=
  match
    (match cs with
     | c :: rest =>
       if c = '-' then ((-1 : Int), rest)
       else if c = '+' then ((1 : Int), rest)
       else ((1 : Int), cs)
     | [] => ((1 : Int), ([] : List Char))) with
  | (sign, cs1) =>
    match parseDigitsAux cs1 0 0 with
    | (e, n, rest) => if n = 0 then none else some (sign * (e : Int), rest)

/-- Apply a (possibly negative) power of ten. -/
def applyExp (q : ℚ) (e : Int) : ℚ :=
  if 0 ≤ e then q * pow10 e.toNat else q / pow10 (-e).toNat

/-- Parse a JSON number (RFC 8259 grammar: optional minus, integer part
without leading zeros, optional fraction, optional exponent). -/
def parseNumber (cs : List Char) : Option (ℚ × List Char) :=
  match
    (match cs with
     | c :: rest => if c = '-' then (true, rest) else (false, cs)
     | [] => (false, ([] : List Char))) with
  | (neg, cs1) =>
    match cs1 with
    | [] => none
    | c0 :: _ =>
      if (digitVal c0).isNone then none
      else
        match parseDigitsAux cs1 0 0 with
        | (ip, ilen, cs2) =>
          if c0 = '0' ∧ ilen ≠ 1 then none
          else
            match
              (match cs2 with
               | c :: rest => if c = '.' then parseFrac rest else some ((0 : ℚ), cs2)
               | [] => some ((0 : ℚ), ([] : List Char))) with
            | none => none
            | some (fv, cs3) =>
              match
                (match cs3 with
                 | c :: rest =>
                   if c = 'e' ∨ c = 'E' then parseExp rest else some ((0 : Int), cs3)
                 | [] => some ((0 : Int), ([] : List Char))) with
              | none => none
              | some (ev, cs4) =>
                match (if neg then -((ip : ℚ) + fv) else (ip : ℚ) + fv) with
                | base => some (applyExp base ev, cs4)

/-- Insert a key into an association list, overwriting an existing binding
(serde_json object maps keep one value per key, last write wins). -/
def insertField : List (String × Json) → String → Json → List (String × Json)
  | [], k, v => [(k, v)]
  | (k2, v2) :: rest, k, v =>
    if k2 = k then (k2, v) :: rest else (k2, v2) :: insertField rest k v

mutual

/-- Parse one JSON value; `fuel` bounds the nesting depth. -/
def parseValue : Nat → List Char → Option (Json × List Char)
  | 0, _ => none
  | Nat.succ fuel, cs =>
    match skipWs cs with
    | [] => none
    | c :: rest =>
      if c = '"' then
        match parseStringRest (rest.length + 1) rest with
        | some (s, r) => some (Json.str (String.mk s), r)
        | none => none
      else if c = lbraceChar then
        match skipWs rest with
        | [] => none
        | c2 :: rest2 =>
          if c2 = rbraceChar then some (Json.obj [], rest2)
          else
            match parseMembers fuel (c2 :: rest2) [] with
            | some (fields, r) => some (Json.obj fields, r)
            | none => none
      else if c = '[' then
        match skipWs rest with
        | [] => none
        | c2 :: rest2 =>
          if c2 = ']' then some (Json.arr [], rest2)
          else
            match parseElems fuel (c2 :: rest2) [] with
            | some (elems, r) => some (Json.arr elems, r)
            | none => none
      else if c = 't' then
        match rest with
        | 'r' :: 'u' :: 'e' :: r => some (Json.bool true, r)
        | _ => none
      else if c = 'f' then
        match rest with
        | 'a' :: 'l' :: 's' :: 'e' :: r => some (Json.bool false, r)
        | _ => none
      else if c = 'n' then
        match rest with
        | 'u' :: 'l' :: 'l' :: r => some (Json.null, r)
        | _ => none
      else
        match parseNumber (c :: rest) with
        | some (q, r) => some (Json.num q, r)
        | none => none
termination_by structural fuel => fuel

/-- Parse the members of a JSON object (input starts at the first key). -/
def parseMembers : Nat → List Char → List (String × Json) →
    Option (List (String × Json) × List Char)
  | 0, _, _ => none
  | Nat.succ fuel, cs, acc =>
    match skipWs cs with
    | [] => none
    | c :: rest =>
      if c = '"' then
        match parseStringRest (rest.length + 1) rest with
        | some (k, r1) =>
          match skipWs r1 with
          | ':' :: r2 =>
            match parseValue fuel r2 with
            | some (v, r3) =>
              match skipWs r3 with
              | ',' :: r4 => parseMembers fuel r4 (insertField acc (String.mk k) v)
              | c4 :: r4 =>
                if c4 = rbraceChar then some (insertField acc (String.mk k) v, r4)
                else none
              | [] => none
            | none => none
          | _ => none
        | none => none
      else none
termination_by structural fuel _ _ => fuel

/-- Parse the elements of a JSON array (input starts at the first element). -/
def parseElems : Nat → List Char → List Json → Option (List Json × List Char)
  | 0, _, _ => none
  | Nat.succ fuel, cs, acc =>
    match parseValue fuel cs with
    | some (v, r) =>
      match skipWs r with
      | ',' :: r2 => parseElems fuel r2 (acc ++ [v])
      | c :: r2 => if c = ']' then some (acc ++ [v], r2) else none
      | [] => none
    | none => none
termination_by structural fuel _ _ => fuel

end

/-- Model of `serde_json::from_str::<Value>`: parse a complete JSON document
(trailing whitespace allowed, trailing garbage rejected). -/
def parseJson (s : String) : Option Json :=
  match parseValue (s.length + 1) s.data with
  | some (j, rest) =>
    match skipWs rest with
    | [] => some j
    | _ => none
  | none => none

/-- Field access of `serde_json::Value` by key (`value["k"]`): returns
`Json.null` when the key is absent or the value is not an object, matching
`Index<&str> for Value`. -/
def Json.getField : Json → String → Json
  | Json.obj fields, k =>
    (fields.lookup k).getD Json.null
  | _, _ => Json.null

/-- Model of `Value::as_str`. -/
def Json.asStr : Json → Option String
  | Json.str s => some s
  | _ => none

/-- Model of `Value::as_f64` (every number in the model is a rational). -/
def Json.asNum : Json → Option ℚ
  | Json.num q => some q
  | _ => none

/-- From tools.rs: function-call details carried inside a `ToolCall`
(struct `ToolCallFunction { name, arguments }`; `arguments` is a
JSON-encoded string). -/
structure ToolCallFunction where
  name : String
  arguments : String
deriving DecidableEq

/-- From tools.rs: a model-issued tool call
(struct `ToolCall { id, type, function }`; the serde rename of `tool_type`
to `"type"` appears in the serializer and decoder below). -/
structure ToolCall where
  id : String
  tool_type : String
  function : ToolCallFunction
deriving DecidableEq

/-- From tools.rs: a declared function a tool offers
(struct `Function { name, description, parameters }`; named `FunctionDef`
here because `Function` is a pre-existing Lean namespace). -/
structure FunctionDef where
  name : String
  description : Option String
  parameters : Option Json

/-- From tools.rs: a tool definition (struct `Tool { type, function }`). -/
structure Tool where
  tool_type : String
  function : FunctionDef

/-- From tools.rs: the canonical chat message
(struct `Message { role, content, tool_calls, tool_call_id, name }`;
all fields but `role` are optional and skipped when absent). -/
structure Message where
  role : String
  content : Option String
  tool_calls : Option (List ToolCall)
  tool_call_id : Option String
  name : Option String
deriving DecidableEq

/-- From tools.rs: `Message::new_user`. -/
def Message.new_user (content : String) : Message :=
  { role := "user", content := some content, tool_calls := none,
    tool_call_id := none, name := none }

/-- From tools.rs: `Message::new_system`. -/
def Message.new_system (content : String) : Message :=
  { role := "system", content := some content, tool_calls := none,
    tool_call_id := none, name := none }

/-- From tools.rs: `Message::new_tool_result`. -/
def Message.new_tool_result (tool_call_id : String) (content : String) : Message :=
  { role := "tool", content := some content, tool_calls := none,
    tool_call_id := some tool_call_id, name := none }

/-- Serialize an optional field, skipped when `none`
(serde `skip_serializing_if = "Option::is_none"`). -/
def optField (k : String) : Option Json → List (String × Json)
  | none => []
  | some v => [(k, v)]

/-- Serde serialization of `ToolCallFunction`. -/
def ToolCallFunction.toJson (f : ToolCallFunction) : Json :=
  Json.obj [("name", Json.str f.name), ("arguments", Json.str f.arguments)]

/-- Serde serialization of `ToolCall` (`tool_type` renamed to `"type"`). -/
def ToolCall.toJson (c : ToolCall) : Json :=
  Json.obj [("id", Json.str c.id), ("type", Json.str c.tool_type),
    ("function", c.function.toJson)]

/-- Serde serialization of `Function` (`parameters` carried verbatim). -/
def FunctionDef.toJson (f : FunctionDef) : Json :=
  Json.obj ([("name", Json.str f.name)]
    ++ optField "description" (f.description.map Json.str)
    ++ optField "parameters" f.parameters)

/-- Serde serialization of `Tool` (`tool_type` renamed to `"type"`). -/
def Tool.toJson (t : Tool) : Json :=
  Json.obj [("type", Json.str t.tool_type), ("function", t.function.toJson)]

/-- Serde serialization of `Message`: `role` always present, the optional
fields skipped when `none`. -/
def Message.toJson (m : Message) : Json :=
  Json.obj ([("role", Json.str m.role)]
    ++ optField "content" (m.content.map Json.str)
    ++ optField "tool_calls"
        (m.tool_calls.map (fun cs => Json.arr (cs.map ToolCall.toJson)))
    ++ optField "tool_call_id" (m.tool_call_id.map Json.str)
    ++ optField "name" (m.name.map Json.str))

/-- Serde deserialization of an `Option<String>` field: an absent field and
an explicit `null` both give `none`; a non-string, non-null value is a type
error (outer `none`). -/
def decodeOptString : Json → Option (Option String)
  | Json.null => some none
  | Json.str s => some (some s)
  | _ => none

/-- Serde deserialization of `ToolCall` (required string fields `id`,
`"type"`, and a `function` object with `name` and `arguments`). -/
def decodeToolCall (j : Json) : Option ToolCall := do
  let id ← (j.getField "id").asStr
  let ty ← (j.getField "type").asStr
  let name ← ((j.getField "function").getField "name").asStr
  let args ← ((j.getField "function").getField "arguments").asStr
  pure ⟨id, ty, ⟨name, args⟩⟩

/-- Deserialize every element of a `tool_calls` array; any bad element
fails the whole decode, as serde does. -/
def decodeToolCallList : List Json → Option (List ToolCall)
  | [] => some []
  | j :: rest => do
    let c ← decodeToolCall j
    let cs ← decodeToolCallList rest
    pure (c :: cs)

/-- Serde deserialization of the `Option<Vec<ToolCall>>` field. -/
def decodeOptToolCalls : Json → Option (Option (List ToolCall))
  | Json.null => some none
  | Json.arr js => (decodeToolCallList js).map some
  | _ => none

/-- Serde deserialization of `Message`: `role` is required; `content` (which
carries `#[serde(default)]`), `tool_calls`, `tool_call_id` and `name`
default to `none` when absent. -/
def decodeMessage (j : Json) : Option Message := do
  let role ← (j.getField "role").asStr
  let content ← decodeOptString (j.getField "content")
  let tcs ← decodeOptToolCalls (j.getField "tool_calls")
  let tcid ← decodeOptString (j.getField "tool_call_id")
  let nm ← decodeOptString (j.getField "name")
  pure ⟨role, content, tcs, tcid, nm⟩

/-- Display of a model rational in the place of Rust's `f64` `Display`:
integer values print as the integer (as `f64` does on the integer-valued
results the claims exercise); a non-integer falls back to a
numerator-slash-denominator form (the claims never evaluate one). -/
def fmtNum (q : ℚ) : String :=
  if q.den = 1 then toString q.num else toString q.num ++ "/" ++ toString q.den

/-- From tools.rs `builders::calculator`: the JSON-schema `parameters`
object of the calculator tool. -/
def calculatorParameters : Json :=
  Json.obj
    [("type", Json.str "object"),
     ("properties", Json.obj
       [("operation", Json.obj
         [("type", Json.str "string"),
          ("enum", Json.arr
            [Json.str "add", Json.str "subtract",
             Json.str "multiply", Json.str "divide"])]),
        ("a", Json.obj [("type", Json.str "number")]),
        ("b", Json.obj [("type", Json.str "number")])]),
     ("required", Json.arr [Json.str "operation", Json.str "a", Json.str "b"])]

namespace builders

/-- From tools.rs `builders::calculator`: the calculator tool definition. -/
def calculator : Tool :=
  { tool_type := "function",
    function :=
      { name := "calculator",
        description := some "A simple calculator function for arithmetic operations",
        parameters := some calculatorParameters } }

end builders

/-- The message format of tools.rs `execute_calculator`:
`format!("The result of {} {} {} is {}", a, operation, b, result)`. -/
def calcMsg (a : ℚ) (operation : String) (b : ℚ) (result : ℚ) : String :=
  "The result of " ++ fmtNum a ++ " " ++ operation ++ " " ++ fmtNum b
    ++ " is " ++ fmtNum result

/-- Dispatch of tools.rs `execute_calculator` after the arguments string has
been JSON-decoded: extract `operation`, `a`, `b` in that order, then branch
on the operation, with the divide-by-zero check inside the `divide` arm. -/
def calc_from_args (args : Json) : Except String String :=
  match (args.getField "operation").asStr with
  | none => Except.error "Missing operation"
  | some operation =>
    match (args.getField "a").asNum with
    | none => Except.error "Missing parameter a"
    | some a =>
      match (args.getField "b").asNum with
      | none => Except.error "Missing parameter b"
      | some b =>
        if operation = "add" then Except.ok (calcMsg a operation b (a + b))
        else if operation = "subtract" then Except.ok (calcMsg a operation b (a - b))
        else if operation = "multiply" then Except.ok (calcMsg a operation b (a * b))
        else if operation = "divide" then
          if b = 0 then Except.error "Division by zero"
          else Except.ok (calcMsg a operation b (a / b))
        else Except.error ("Unsupported operation: " ++ operation)

namespace handlers

/-- From tools.rs `handlers::execute_calculator`: parse
`tool_call.function.arguments` as JSON (the serde diagnostic after the
"Failed to parse calculator arguments" prefix is not modelled), then
evaluate the arguments. -/
def execute_calculator (tool_call : ToolCall) : Except String String :=
  match parseJson tool_call.function.arguments with
  | none => Except.error "Failed to parse calculator arguments"
  | some args => calc_from_args args

/-- From tools.rs `handlers::execute_tool_call`: dispatch on the function
name; any name other than `"calculator"` yields the successful
"Unknown tool" text. -/
def execute_tool_call (tool_call : ToolCall) : Except String String :=
  if tool_call.function.name = "calculator" then execute_calculator tool_call
  else Except.ok ("Unknown tool: " ++ tool_call.function.name)

end handlers

/-- From llm.rs: the error taxonomy (`enum Error`).  The source surfaces
errors as `String`s; `display` below gives each variant's `Display` text,
which is what the string-typed results carry when a variant is used. -/
inductive LLMError where
  | EmptyModelName : LLMError
  | EmptyMessages : LLMError
  | InvalidProvider : LLMError
  | RequestFailed : String → LLMError
  | Other : String → LLMError
deriving DecidableEq

/-- The `Display` implementation of llm.rs `Error`. -/
def LLMError.display : LLMError → String
  | LLMError.EmptyModelName => "Model name cannot be empty"
  | LLMError.EmptyMessages => "Messages cannot be empty"
  | LLMError.InvalidProvider => "Invalid provider configuration"
  | LLMError.RequestFailed m => "Request failed: " ++ m
  | LLMError.Other m => "Other error: " ++ m

/-- The process environment, read by `std::env::var`: a partial map from
variable names to values (configuration is the only state the client
construction reads). -/
def Env : Type := String → Option String

/-- Whitespace as trimmed by Rust's `str::trim` (restricted to the ASCII
whitespace characters; the claims only exercise blanks and tabs). -/
def rustWs (c : Char) : Bool :=
  c = ' ' || c = '\t' || c = '\n' || c = '\r' || c = Char.ofNat 11 || c = Char.ofNat 12

/-- Drop leading Rust whitespace. -/
def dropWsLeft : List Char → List Char
  | [] => []
  | c :: rest => if rustWs c then dropWsLeft rest else c :: rest

/-- Model of Rust `str::trim`. -/
def rustTrim (s : String) : String :=
  String.mk ((dropWsLeft (dropWsLeft s.data.reverse).reverse))

/-- From llm.rs `get_required_var`: read a required environment variable;
the error text of `std::env::VarError::NotPresent` is
"environment variable not found". -/
def get_required_var (env : Env) (name : String) : Except String String :=
  match env name with
  | some v => Except.ok v
  | none =>
    Except.error ("Missing required variable " ++ name ++ ": environment variable not found")

/-- From llm.rs: the client state (`struct LLMClient { model, api_url,
api_key }`). -/
structure LLMClient where
  model : String
  api_url : String
  api_key : Option String
deriving DecidableEq

/-- From llm.rs `LLMClient::new`: reject a blank model name, then resolve
credential and endpoint.  Both `match model` statements of the source
branch on the same two literals `"gpt-3.5-turbo" | "gpt-4"`, abbreviated
here as one boolean. -/
def LLMClient.new (env : Env) (model : String) : Except String LLMClient :=
  if (rustTrim model).isEmpty then Except.error "Model name cannot be empty"
  else
    match
      (if model = "gpt-3.5-turbo" ∨ model = "gpt-4"
       then (get_required_var env "WAVS_ENV_OPENAI_API_KEY").map some
       else Except.ok none) with
    | Except.error e => Except.error e
    | Except.ok api_key =>
      Except.ok
        { model := model,
          api_url :=
            if model = "gpt-3.5-turbo" ∨ model = "gpt-4"
            then "https://api.openai.com/v1/chat/completions"
            else ((env "WAVS_ENV_OLLAMA_API_URL").getD "http://localhost:11434")
              ++ "/api/chat",
          api_key := api_key }

/-- From llm.rs `chat_completion`, lines 104-144: the request body.  The
OpenAI-format branch (taken when an API key is held) is flat with
`max_tokens`; the Ollama branch nests the sampling fields under `options`
with `num_predict` as the token limit; both append a `tools` array when
tools are provided. -/
def request_body (client : LLMClient) (messages : List Message)
    (tools : Option (List Tool)) : Json :=
  if client.api_key.isSome then
    let base :=
      [("model", Json.str client.model),
       ("messages", Json.arr (messages.map Message.toJson)),
       ("temperature", Json.num 0),
       ("top_p", Json.num 1),
       ("seed", Json.num 42),
       ("stream", Json.bool false),
       ("max_tokens", Json.num (if tools.isSome then 1024 else 100))]
    match tools with
    | some tools_list =>
      Json.obj (insertField base "tools" (Json.arr (tools_list.map Tool.toJson)))
    | none => Json.obj base
  else
    let base :=
      [("model", Json.str client.model),
       ("messages", Json.arr (messages.map Message.toJson)),
       ("stream", Json.bool false),
       ("options", Json.obj
         [("temperature", Json.num 0),
          ("top_p", Json.num (1 / 10)),
          ("seed", Json.num 42),
          ("num_ctx", Json.num 4096),
          ("num_predict", Json.num (if tools.isSome then 1024 else 100))])]
    match tools with
    | some tools_list =>
      Json.obj (insertField base "tools" (Json.arr (tools_list.map Tool.toJson)))
    | none => Json.obj base

/-- The pre-network phase of llm.rs `chat_completion`: the empty-messages
guard (lines 94-97) runs before any request body is constructed; on success
the value is the body that would be posted to `client.api_url`. -/
def chat_completion_request (client : LLMClient) (messages : List Message)
    (tools : Option (List Tool)) : Except String Json :=
  if messages.isEmpty then Except.error "Messages cannot be empty"
  else Except.ok (request_body client messages tools)

/-- From llm.rs `chat_completion`, lines 221-232: the Local (Ollama) branch
of response parsing.  The source deserializes the single shape
`OllamaResponse { message: Message }`; any body not matching it is a parse
error (prefix "Failed to parse Ollama response"). -/
def parseOllamaResponse (body : String) : Except String Message :=
  match parseJson body with
  | none => Except.error "Failed to parse Ollama response"
  | some j =>
    match decodeMessage (j.getField "message") with
    | some m => Except.ok m
    | none => Except.error "Failed to parse Ollama response"

/-- Decode one element of the OpenAI `choices` array
(`struct Choice { message: Message }`). -/
def decodeChoice (j : Json) : Option Message :=
  decodeMessage (j.getField "message")

/-- Decode the whole `choices` array; serde fails the decode if any element
is malformed. -/
def decodeChoiceList : List Json → Option (List Message)
  | [] => some []
  | j :: rest => do
    let m ← decodeChoice j
    let ms ← decodeChoiceList rest
    pure (m :: ms)

/-- From llm.rs `chat_completion`, lines 202-220: the OpenAI branch of
response parsing: decode `ChatResponse { choices }`, then take the first
choice's message, failing with "No response choices returned" when the
array is empty. -/
def parseOpenAIResponse (body : String) : Except String Message :=
  match parseJson body with
  | none => Except.error "Failed to parse OpenAI response"
  | some j =>
    match j.getField "choices" with
    | Json.arr choices =>
      match decodeChoiceList choices with
      | some [] => Except.error "No response choices returned"
      | some (m :: _) => Except.ok m
      | none => Except.error "Failed to parse OpenAI response"
    | _ => Except.error "Failed to parse OpenAI response"

/-- From llama.rs: the message shape of the success envelope
(`struct OllamaChatMessage { content }`). -/
structure OllamaChatMessage where
  content : String
deriving DecidableEq

/-- From llama.rs: the two-shape untagged response envelope
(`enum OllamaChatResponse { Success(OllamaChatSuccessResponse),
Error { error } }`). -/
inductive OllamaChatResponse where
  | Success : OllamaChatMessage → OllamaChatResponse
  | Error : String → OllamaChatResponse
deriving DecidableEq

/-- Serde `untagged` deserialization of llama.rs `OllamaChatResponse`: try
the success envelope `{ message: { content } }` first, then the error
envelope `{ error }`; first match wins. -/
def decodeOllamaChatResponse (j : Json) : Option OllamaChatResponse :=
  match ((j.getField "message").getField "content").asStr with
  | some c => some (OllamaChatResponse.Success ⟨c⟩)
  | none =>
    match (j.getField "error").asStr with
    | some e => some (OllamaChatResponse.Error e)
    | none => none

/-- The llama.rs two-shape decoding applied to a raw body: JSON-parse, then
untagged-decode. -/
def ollamaTwoShapeDecode (body : String) : Option OllamaChatResponse :=
  (parseJson body).bind decodeOllamaChatResponse

/-- One `chat_completion` network round trip, abstracted: given the message
list and the optional tools, the oracle returns the canonical response
message (or an error).  The conversation loop of lib.rs is deterministic
relative to this oracle. -/
def Oracle : Type := List Message → Option (List Tool) → Except String Message

/-- From llm.rs `chat_completion_text`, lines 236-239: call
`chat_completion` with `None` tools and keep `content.unwrap_or_default()`,
discarding any `tool_calls`. -/
def chat_completion_text (llm : Oracle) (messages : List Message) :
    Except String String :=
  (llm messages none).map (fun response => response.content.getD "")

/-- From lib.rs `process_tool_calls`, lines 128-135: the sanitized copy of
the assistant message pushed before the tool results: `content` defaulted to
the empty string, the original `tool_calls` restored verbatim. -/
def sanitizeResponse (response : Message) (tool_calls : List ToolCall) : Message :=
  { role := response.role,
    content := some (response.content.getD ""),
    tool_calls := some tool_calls,
    tool_call_id := response.tool_call_id,
    name := response.name }

/-- From lib.rs `process_tool_calls`, lines 138-141: the loop that executes
each tool call in order and appends one tool-result message per call; the
`?` operator aborts the whole round on the first failing execution. -/
def appendToolResults : List Message → List ToolCall → Except String (List Message)
  | msgs, [] => Except.ok msgs
  | msgs, tool_call :: rest =>
    match handlers.execute_tool_call tool_call with
    | Except.error e => Except.error e
    | Except.ok tool_result =>
      appendToolResults (msgs ++ [Message.new_tool_result tool_call.id tool_result]) rest

/-- From lib.rs `process_tool_calls`, lines 116-146: extend the history with
the sanitized assistant message and the tool results, then fetch the final
text via `chat_completion_text`. -/
def process_tool_calls (llm : Oracle) (initial_messages : List Message)
    (response : Message) (tool_calls : List ToolCall) : Except String String :=
  match appendToolResults (initial_messages ++ [sanitizeResponse response tool_calls])
      tool_calls with
  | Except.error e => Except.error e
  | Except.ok tool_messages => chat_completion_text llm tool_messages

/-- From lib.rs `run`: the fixed system prompt of the agent. -/
def systemPrompt : String :=
  "You are a helpful assistant for the Hats Protocol, a system for creating, managing, and wearing authority tokens called Hats. Use the provided tools when appropriate to assist users with their queries."

/-- From lib.rs `run`: the advertised tool list (`available_tools`). -/
def available_tools : List Tool := [builders.calculator]

/-- From lib.rs `run`: the initial system+user message list built from the
prompt. -/
def initialMessages (prompt : String) : List Message :=
  [Message.new_system systemPrompt, Message.new_user prompt]

/-- From lib.rs `run`, lines 77-98, instrumented with the trace of
`chat_completion` invocations (message list and tools option of each call,
in order): send the initial messages with the tools; if the response holds a
non-empty `tool_calls` list, take it out of the response
(`response.tool_calls.take()`) and run `process_tool_calls`; otherwise
return the content.  The trace makes the number and shape of the network
rounds provable. -/
def runAgentTrace (llm : Oracle) (prompt : String) :
    Except String String × List (List Message × Option (List Tool)) :=
  let msgs := initialMessages prompt
  let firstReq := (msgs, some available_tools)
  match llm msgs (some available_tools) with
  | Except.error e => (Except.error e, [firstReq])
  | Except.ok response =>
    match response.tool_calls with
    | some tool_calls =>
      if tool_calls.isEmpty then
        (Except.ok (response.content.getD ""), [firstReq])
      else
        match appendToolResults
            (msgs ++ [sanitizeResponse { response with tool_calls := none } tool_calls])
            tool_calls with
        | Except.error e => (Except.error e, [firstReq])
        | Except.ok tool_messages =>
          (chat_completion_text llm tool_messages, [firstReq, (tool_messages, none)])
    | none => (Except.ok (response.content.getD ""), [firstReq])

/-- Modelled from the spec: the hosted Anthropic-compatible provider adapter
is code of this repository missing from src/ (the spec's design notes record
multiple divergent iterations of the client; only the Local and
HostedOpenAICompatible iterations are present).  Spec wording followed:
"the single system-role message (if any) is hoisted into a dedicated
`system` field" — the first system-role message's content (empty when there
is none). -/
def anthropic_system_text (messages : List Message) : String :=
  (((messages.find? (fun m => m.role = "system")).bind (fun m => m.content)).getD "")

/-- Modelled from the spec: "all user/assistant turns are concatenated into
one user turn" — their contents joined in order (newline-separated). -/
def anthropic_user_text (messages : List Message) : String :=
  String.intercalate "\n"
    ((messages.filter (fun m => m.role = "user" || m.role = "assistant")).map
      (fun m => m.content.getD ""))

/-- A provider HTTP request: method, URL and JSON body (headers are outside
the model). -/
structure HttpRequest where
  method : String
  url : String
  body : Json

/-- Modelled from the spec: the hosted Anthropic-compatible `build_request`
(missing from src/) — "POST {base}/v1/messages, JSON body {model,
messages:[{role:\"user\", content}], system, max_tokens, temperature,
top_p}". -/
def anthropic_build_request (model : String) (base : String) (max_tokens : ℚ)
    (temperature : ℚ) (top_p : ℚ) (messages : List Message) : HttpRequest :=
  { method := "POST",
    url := base ++ "/v1/messages",
    body := Json.obj
      [("model", Json.str model),
       ("messages", Json.arr
         [Json.obj [("role", Json.str "user"),
                    ("content", Json.str (anthropic_user_text messages))]]),
       ("system", Json.str (anthropic_system_text messages)),
       ("max_tokens", Json.num max_tokens),
       ("temperature", Json.num temperature),
       ("top_p", Json.num top_p)] }

/-- Modelled from the spec: the hosted Anthropic-compatible `parse_response`
(missing from src/) — "decode a `content[0].text`; fail if the array is
empty"; a body that is not a success envelope at all is a parse error. -/
def anthropic_parse_response (body : String) : Except String String :=
  match parseJson body with
  | none => Except.error "Failed to parse Anthropic response"
  | some j =>
    match j.getField "content" with
    | Json.arr [] => Except.error "No content returned"
    | Json.arr (c :: _) =>
      match (c.getField "text").asStr with
      | some t => Except.ok t
      | none => Except.error "Failed to parse Anthropic response"
    | _ => Except.error "Failed to parse Anthropic response"

set_option maxRecDepth 8192

/-- Arguments object of a calculator call, at the JSON level. -/
def calcArgs (operation : String) (a b : ℚ) : Json :=
  Json.obj [("operation", Json.str operation), ("a", Json.num a), ("b", Json.num b)]

/-- The text a tool execution contributes: the successful result, or the
error text of a failed execution (the spec's reading of the tool-result
content; the code propagates the error instead, see the theorems on C2). -/
def toolResultText (c : ToolCall) : String :=
  match handlers.execute_tool_call c with
  | Except.ok s => s
  | Except.error e => e

/-- A calculator call `{operation: add, a: 2, b: 3}`. -/
def addCall : ToolCall :=
  ⟨"call_add", "function",
    ⟨"calculator", "\x7b\"operation\":\"add\",\"a\":2,\"b\":3\x7d"⟩⟩

/-- A calculator call `{operation: divide, a: 24, b: 6}`. -/
def divCall : ToolCall :=
  ⟨"call_div", "function",
    ⟨"calculator", "\x7b\"operation\":\"divide\",\"a\":24,\"b\":6\x7d"⟩⟩

/-- A calculator call `{operation: divide, a: 1, b: 0}`. -/
def divZeroCall : ToolCall :=
  ⟨"call_zero", "function",
    ⟨"calculator", "\x7b\"operation\":\"divide\",\"a\":1,\"b\":0\x7d"⟩⟩

/-- A calculator call `{operation: modulo, a: 1, b: 1}`. -/
def moduloCall : ToolCall :=
  ⟨"call_mod", "function",
    ⟨"calculator", "\x7b\"operation\":\"modulo\",\"a\":1,\"b\":1\x7d"⟩⟩

/-- A calculator call whose arguments string is not JSON. -/
def malformedArgsCall : ToolCall :=
  ⟨"call_bad", "function", ⟨"calculator", "not json"⟩⟩

/-- The end-to-end demo prompt of the spec's testable properties. -/
def demoPrompt : String := "Calculate 24 divided by 6"

/-- A first-round assistant response requesting one calculator call. -/
def demoAssistant : Message :=
  { role := "assistant", content := none, tool_calls := some [divCall],
    tool_call_id := none, name := none }

/-- A final-round assistant response with plain text content. -/
def demoFinal : Message :=
  { role := "assistant", content := some "The result is 4", tool_calls := none,
    tool_call_id := none, name := none }

/-- A deterministic oracle: requests the calculator call when tools are
offered, answers with text when they are not. -/
def demoLLM : Oracle := fun _ tools =>
  if tools.isSome then Except.ok demoAssistant else Except.ok demoFinal

/-- The accumulated history after the demo tool round. -/
def demoHistory : List Message :=
  initialMessages demoPrompt
    ++ [sanitizeResponse { demoAssistant with tool_calls := none } [divCall],
        Message.new_tool_result "call_div" "The result of 24 divide 6 is 4"]

/-- An Ollama success envelope. -/
def okBody : String :=
  "\x7b\"message\":\x7b\"role\":\"assistant\",\"content\":\"hi\"\x7d\x7d"

/-- An Ollama error envelope (the second shape of llama.rs
`OllamaChatResponse`). -/
def errBody : String := "\x7b\"error\":\"model not found\"\x7d"

/-- An environment holding no variables. -/
def emptyEnv : Env := fun _ => none

/-- An environment holding only the OpenAI API key. -/
def keyEnv : Env :=
  fun name => if name = "WAVS_ENV_OPENAI_API_KEY" then some "sk-test" else none

/-- A local-provider client as `LLMClient::new` resolves it for a
non-OpenAI model under `emptyEnv`. -/
def demoLocalClient : LLMClient :=
  ⟨"llama3.2", "http://localhost:11434/api/chat", none⟩

/-- A hosted-provider client as `LLMClient::new` resolves it for `gpt-4`
under `keyEnv`. -/
def demoOpenAIClient : LLMClient :=
  ⟨"gpt-4", "https://api.openai.com/v1/chat/completions", some "sk-test"⟩

/-- A conversation exercising the Anthropic restructuring: one system turn,
two user turns and one assistant turn. -/
def anthroDemoMsgs : List Message :=
  [Message.new_system "sys prompt",
   Message.new_user "first question",
   { role := "assistant", content := some "first answer", tool_calls := none,
     tool_call_id := none, name := none },
   Message.new_user "second question"]

/-- An Anthropic success body with one content block. -/
def okAnthropicBody : String :=
  "\x7b\"content\":[\x7b\"text\":\"hi\"\x7d]\x7d"

/-- An Anthropic body whose content array is empty. -/
def emptyContentBody : String := "\x7b\"content\":[]\x7d"

/-- When every execution in the list succeeds, the tool-result loop appends
exactly one `role=tool` message per call, in call order, each carrying the
call's id and its execution result. -/
theorem appendToolResults_all_ok (tool_calls : List ToolCall) :
    ∀ msgs : List Message,
    (∀ c ∈ tool_calls, (handlers.execute_tool_call c).isOk = true) →
    appendToolResults msgs tool_calls =
      Except.ok (msgs ++ tool_calls.map
        (fun c => Message.new_tool_result c.id (toolResultText c))) := by
  induction tool_calls with
  | nil => intro msgs _; simp [appendToolResults]
  | cons c rest ih =>
    intro msgs h
    have hc : (handlers.execute_tool_call c).isOk = true := h c (by simp)
    obtain ⟨s, hs⟩ : ∃ s, handlers.execute_tool_call c = Except.ok s := by
      cases hcc : handlers.execute_tool_call c with
      | ok s => exact ⟨s, rfl⟩
      | error e => rw [hcc] at hc; simp [Except.isOk, Except.toBool] at hc
    have ht : toolResultText c = s := by simp [toolResultText, hs]
    rw [appendToolResults, hs]
    show appendToolResults (msgs ++ [Message.new_tool_result c.id s]) rest = _
    rw [ih (msgs ++ [Message.new_tool_result c.id s]) (fun d hd => h d (by simp [hd]))]
    simp [ht]

/-- The first failing execution aborts the loop with its error; no
tool-result message for it (or anything after it) is appended. -/
theorem appendToolResults_first_error (pre : List ToolCall) :
    ∀ (msgs : List Message) (c : ToolCall) (post : List ToolCall) (e : String),
    (∀ d ∈ pre, (handlers.execute_tool_call d).isOk = true) →
    handlers.execute_tool_call c = Except.error e →
    appendToolResults msgs (pre ++ c :: post) = Except.error e := by
  induction pre with
  | nil => intro msgs c post e _ hc; simp [appendToolResults, hc]
  | cons d rest ih =>
    intro msgs c post e h hc
    have hd : (handlers.execute_tool_call d).isOk = true := h d (by simp)
    obtain ⟨s, hs⟩ : ∃ s, handlers.execute_tool_call d = Except.ok s := by
      cases hdd : handlers.execute_tool_call d with
      | ok s => exact ⟨s, rfl⟩
      | error e2 => rw [hdd] at hd; simp [Except.isOk, Except.toBool] at hd
    rw [List.cons_append, appendToolResults, hs]
    show appendToolResults (msgs ++ [Message.new_tool_result d.id s]) (rest ++ c :: post) = _
    exact ih _ c post e (fun d2 hd2 => h d2 (by simp [hd2])) hc

/-- C7.  For every client configuration and every tools option,
`chat_completion` on the empty message list fails with the `EmptyMessages`
error text "Messages cannot be empty" (llm.rs lines 94-97) and no request
body is produced. -/
theorem C7_empty_messages_rejected (client : LLMClient) (tools : Option (List Tool)) :
    chat_completion_request client [] tools =
      Except.error (LLMError.display LLMError.EmptyMessages) := rfl

/-- C8.  Any tool call whose function name is not `"calculator"` yields the
successful text `Unknown tool: {name}` rather than an error
(tools.rs `execute_tool_call`). -/
theorem C8_unknown_tool_text (tool_call : ToolCall)
    (h : tool_call.function.name ≠ "calculator") :
    handlers.execute_tool_call tool_call =
      Except.ok ("Unknown tool: " ++ tool_call.function.name) := by
  simp [handlers.execute_tool_call, h]

/-- Witness for C8 at a concrete unknown tool name. -/
theorem C8_unknown_tool_text_witness :
    handlers.execute_tool_call ⟨"c1", "function", ⟨"weather", "\x7b\x7d"⟩⟩ =
      Except.ok ("Unknown tool: " ++ "weather") :=
  C8_unknown_tool_text ⟨"c1", "function", ⟨"weather", "\x7b\x7d"⟩⟩ (by decide)

/-- Counterexample for C4.  The body `{"error":"model not found"}` matches
the second (error-envelope) shape of the two-shape untagged decoding the
claim describes (the llama.rs `OllamaChatResponse` decoder recognizes it),
yet the Local branch of `chat_completion` (llm.rs lines 221-232), which
deserializes only `OllamaResponse { message }`, fails on it with a parse
error — so the body is not decoded "as one of two shapes with the first
match winning". -/
theorem C4_error_envelope_counterexample :
    ollamaTwoShapeDecode errBody =
      some (OllamaChatResponse.Error "model not found") ∧
    parseOllamaResponse errBody =
      Except.error "Failed to parse Ollama response" := by
  constructor
  · with_unfolding_all decide
  · with_unfolding_all decide

/-- C4 amended.  For the Local provider, `chat_completion` decodes the raw
body as the single success envelope `{message: ...}`; any body not matching
that shape — including the error envelope `{error: ...}` and non-JSON
text — fails with a parse error, and every failure of this parse is that
parse error. -/
theorem C4_local_parse_success_only_amended :
    parseOllamaResponse okBody =
      Except.ok ⟨"assistant", some "hi", none, none, none⟩ ∧
    parseOllamaResponse errBody =
      Except.error "Failed to parse Ollama response" ∧
    parseOllamaResponse "not json" =
      Except.error "Failed to parse Ollama response" ∧
    (∀ body : String, (∃ m, parseOllamaResponse body = Except.ok m) ∨
      parseOllamaResponse body = Except.error "Failed to parse Ollama response") := by
  refine ⟨by with_unfolding_all decide, by with_unfolding_all decide,
    by with_unfolding_all decide, ?_⟩
  intro body
  rcases hpj : parseJson body with _ | j
  · exact Or.inr (by simp [parseOllamaResponse, hpj])
  · rcases hdm : decodeMessage (j.getField "message") with _ | m
    · exact Or.inr (by simp [parseOllamaResponse, hpj, hdm])
    · exact Or.inl ⟨m, by simp [parseOllamaResponse, hpj, hdm]⟩

/-- C3.  The calculator dispatches on the decoded `operation`: add, subtract
and multiply map to the exact arithmetic result, divide checks for a zero
divisor first, an unknown operation is reported by name, a non-JSON
arguments string is a parse failure, and missing or non-numeric fields are
reported by field; the two concrete examples of the spec produce the exact
texts (which contain "5" and "4" respectively — the membership conjuncts). -/
theorem C3_calculator_dispatch :
    (∀ a b : ℚ, calc_from_args (calcArgs "add" a b) =
      Except.ok (calcMsg a "add" b (a + b))) ∧
    (∀ a b : ℚ, calc_from_args (calcArgs "subtract" a b) =
      Except.ok (calcMsg a "subtract" b (a - b))) ∧
    (∀ a b : ℚ, calc_from_args (calcArgs "multiply" a b) =
      Except.ok (calcMsg a "multiply" b (a * b))) ∧
    (∀ a b : ℚ, b ≠ 0 → calc_from_args (calcArgs "divide" a b) =
      Except.ok (calcMsg a "divide" b (a / b))) ∧
    (∀ a : ℚ, calc_from_args (calcArgs "divide" a 0) =
      Except.error "Division by zero") ∧
    (∀ (operation : String) (a b : ℚ), operation ≠ "add" → operation ≠ "subtract" →
      operation ≠ "multiply" → operation ≠ "divide" →
      calc_from_args (calcArgs operation a b) =
        Except.error ("Unsupported operation: " ++ operation)) ∧
    handlers.execute_calculator malformedArgsCall =
      Except.error "Failed to parse calculator arguments" ∧
    calc_from_args (Json.obj [("a", Json.num 2), ("b", Json.num 3)]) =
      Except.error "Missing operation" ∧
    calc_from_args (Json.obj [("operation", Json.str "add"),
        ("a", Json.str "two"), ("b", Json.num 3)]) =
      Except.error "Missing parameter a" ∧
    handlers.execute_tool_call addCall = Except.ok "The result of 2 add 3 is 5" ∧
    '5' ∈ ("The result of 2 add 3 is 5").data ∧
    handlers.execute_tool_call divZeroCall = Except.error "Division by zero" ∧
    handlers.execute_tool_call moduloCall =
      Except.error "Unsupported operation: modulo" ∧
    handlers.execute_tool_call divCall = Except.ok "The result of 24 divide 6 is 4" ∧
    '4' ∈ ("The result of 24 divide 6 is 4").data := by
  refine ⟨?_, ?_, ?_, ?_, ?_, ?_, by with_unfolding_all decide,
    by with_unfolding_all decide, by with_unfolding_all decide,
    by with_unfolding_all decide, by decide, by with_unfolding_all decide,
    by with_unfolding_all decide, by with_unfolding_all decide, by decide⟩
  · intro a b; simp [calc_from_args, calcArgs, Json.getField, Json.asStr, Json.asNum, List.lookup]
  · intro a b; simp [calc_from_args, calcArgs, Json.getField, Json.asStr, Json.asNum, List.lookup]
  · intro a b; simp [calc_from_args, calcArgs, Json.getField, Json.asStr, Json.asNum, List.lookup]
  · intro a b hb
    simp [calc_from_args, calcArgs, Json.getField, Json.asStr, Json.asNum, List.lookup, hb]
  · intro a; simp [calc_from_args, calcArgs, Json.getField, Json.asStr, Json.asNum, List.lookup]
  · intro operation a b h1 h2 h3 h4
    simp [calc_from_args, calcArgs, Json.getField, Json.asStr, Json.asNum,
      List.lookup, h1, h2, h3, h4]

/-- Witness for C3: the divide arm applied at 24 and 6. -/
theorem C3_calculator_dispatch_witness :
    calc_from_args (calcArgs "divide" 24 6) =
      Except.ok (calcMsg 24 "divide" 6 (24 / 6)) :=
  C3_calculator_dispatch.2.2.2.1 24 6 (by norm_num)

/-- Counterexample for C2.  On a divide-by-zero tool call the executor
fails, and lib.rs `process_tool_calls` propagates that error with `?`
instead of appending a tool-result message whose content is the error text:
the round produces no tool-result message at all (the history computation
and the whole round both return the error), refuting the claim's
"content equal to the execution result or error text". -/
theorem C2_tool_error_aborts_counterexample :
    appendToolResults
        (initialMessages "What is 1 divided by 0?"
          ++ [sanitizeResponse { demoAssistant with tool_calls := none } [divZeroCall]])
        [divZeroCall] = Except.error "Division by zero" ∧
    process_tool_calls demoLLM (initialMessages "What is 1 divided by 0?")
        { demoAssistant with tool_calls := none } [divZeroCall] =
      Except.error "Division by zero" := by
  constructor
  · with_unfolding_all decide
  · with_unfolding_all decide

/-- C2 amended.  When every tool execution succeeds, the loop appends the
sanitized assistant message (content defaulted to the empty string, the
tool_calls preserved verbatim, role kept) followed by exactly one
tool-result message per call, in the order of the `tool_calls` array, each
with role `tool`, `tool_call_id` the call's id, and content the execution
result; if any execution fails, the round aborts with that error (no
tool-result message carries error text). -/
theorem C2_sanitized_history_amended (initial_messages : List Message)
    (response : Message) :
    (∀ tool_calls : List ToolCall,
      (∀ c ∈ tool_calls, (handlers.execute_tool_call c).isOk = true) →
      appendToolResults (initial_messages ++ [sanitizeResponse response tool_calls])
          tool_calls =
        Except.ok (initial_messages ++ sanitizeResponse response tool_calls ::
          tool_calls.map (fun c => Message.new_tool_result c.id (toolResultText c)))) ∧
    (∀ (pre : List ToolCall) (c : ToolCall) (post : List ToolCall) (e : String)
        (msgs : List Message),
      (∀ d ∈ pre, (handlers.execute_tool_call d).isOk = true) →
      handlers.execute_tool_call c = Except.error e →
      appendToolResults msgs (pre ++ c :: post) = Except.error e) ∧
    (∀ tool_calls : List ToolCall,
      (sanitizeResponse response tool_calls).role = response.role ∧
      (sanitizeResponse response tool_calls).content =
        some (response.content.getD "") ∧
      (sanitizeResponse response tool_calls).tool_calls = some tool_calls) ∧
    (∀ c : ToolCall,
      (Message.new_tool_result c.id (toolResultText c)).role = "tool" ∧
      (Message.new_tool_result c.id (toolResultText c)).tool_call_id = some c.id ∧
      (Message.new_tool_result c.id (toolResultText c)).content =
        some (toolResultText c)) := by
  refine ⟨?_, ?_, ?_, ?_⟩
  · intro tool_calls h
    rw [appendToolResults_all_ok tool_calls _ h]
    simp
  · intro pre c post e msgs h hc
    exact appendToolResults_first_error pre msgs c post e h hc
  · intro tool_calls
    exact ⟨rfl, rfl, rfl⟩
  · intro c
    exact ⟨rfl, rfl, rfl⟩

/-- Witness for C2 amended: two successful calculator calls appended in
order behind the sanitized assistant message. -/
theorem C2_sanitized_history_amended_witness :
    appendToolResults
        (initialMessages demoPrompt
          ++ [sanitizeResponse { demoAssistant with tool_calls := none }
              [addCall, divCall]])
        [addCall, divCall] =
      Except.ok (initialMessages demoPrompt ++
        sanitizeResponse { demoAssistant with tool_calls := none }
            [addCall, divCall] ::
          [addCall, divCall].map
            (fun c => Message.new_tool_result c.id (toolResultText c))) :=
  (C2_sanitized_history_amended (initialMessages demoPrompt)
    { demoAssistant with tool_calls := none }).1 [addCall, divCall]
    (by with_unfolding_all decide)

/-- C6.  Whenever the first round returns a non-empty `tool_calls` list and
every execution succeeds, the loop issues exactly two `chat_completion`
calls: the initial one with the tools, then exactly one resubmission of the
full accumulated history via `chat_completion_text` — which passes `none`
for tools and returns `content` defaulted to the empty string, discarding
any `tool_calls` of the final response — and terminates without re-entering
tool execution. -/
theorem C6_single_tool_round (llm : Oracle) (prompt : String) (response : Message)
    (tool_calls : List ToolCall) (tool_messages : List Message)
    (h1 : llm (initialMessages prompt) (some available_tools) = Except.ok response)
    (h2 : response.tool_calls = some tool_calls)
    (h3 : tool_calls.isEmpty = false)
    (h4 : appendToolResults
        (initialMessages prompt
          ++ [sanitizeResponse { response with tool_calls := none } tool_calls])
        tool_calls = Except.ok tool_messages) :
    (runAgentTrace llm prompt).2 =
      [(initialMessages prompt, some available_tools), (tool_messages, none)] ∧
    (runAgentTrace llm prompt).1 = chat_completion_text llm tool_messages ∧
    chat_completion_text llm tool_messages =
      (llm tool_messages none).map (fun r => r.content.getD "") := by
  refine ⟨?_, ?_, rfl⟩ <;> simp [runAgentTrace, h1, h2, h3, h4]

/-- Witness for C6: the deterministic demo oracle performs exactly one tool
round on the demo prompt and ends with the final text round. -/
theorem C6_single_tool_round_witness :
    (runAgentTrace demoLLM demoPrompt).2 =
      [(initialMessages demoPrompt, some available_tools), (demoHistory, none)] ∧
    (runAgentTrace demoLLM demoPrompt).1 = chat_completion_text demoLLM demoHistory ∧
    chat_completion_text demoLLM demoHistory =
      (demoLLM demoHistory none).map (fun r => r.content.getD "") :=
  C6_single_tool_round demoLLM demoPrompt demoAssistant [divCall] demoHistory
    (by with_unfolding_all decide) (by decide) (by decide)
    (by with_unfolding_all decide)

/-- C1.  For every client, every non-empty message list and every tools
option, the body built by `chat_completion` carries the fixed deterministic
sampling policy, independent of the messages: temperature 0 and seed 42 in
both provider formats, the provider's fixed top_p constant (1.0 on the flat
OpenAI body, 0.1 inside the Ollama `options`), and a bounded token limit
(`max_tokens` resp. `num_predict`) of 100 without tools and 1024 with
tools, the former strictly smaller. -/
theorem C1_chat_completion_fixed_sampling_policy
    (client : LLMClient) (messages : List Message) (tools : Option (List Tool))
    (h : messages.isEmpty = false) :
    chat_completion_request client messages tools =
      Except.ok (request_body client messages tools) ∧
    (if client.api_key.isSome then request_body client messages tools
     else (request_body client messages tools).getField "options").getField
        "temperature" = Json.num 0 ∧
    (if client.api_key.isSome then request_body client messages tools
     else (request_body client messages tools).getField "options").getField
        "seed" = Json.num 42 ∧
    (if client.api_key.isSome then request_body client messages tools
     else (request_body client messages tools).getField "options").getField
        "top_p" = Json.num (if client.api_key.isSome then 1 else 1 / 10) ∧
    (if client.api_key.isSome then
      (request_body client messages tools).getField "max_tokens"
     else ((request_body client messages tools).getField "options").getField
        "num_predict") = Json.num (if tools.isSome then 1024 else 100) ∧
    (100 : ℚ) < 1024 := by
  obtain ⟨m, u, k⟩ := client
  refine ⟨by simp [chat_completion_request, h], ?_, ?_, ?_, ?_, by norm_num⟩ <;>
    cases k <;> cases tools <;>
      simp [request_body, Json.getField, insertField, List.lookup]

/-- Witness for C1: the hosted client with tools offered. -/
theorem C1_chat_completion_fixed_sampling_policy_witness :
    chat_completion_request demoOpenAIClient [Message.new_user "hi"]
        (some available_tools) =
      Except.ok (request_body demoOpenAIClient [Message.new_user "hi"]
        (some available_tools)) ∧
    (if demoOpenAIClient.api_key.isSome then
      request_body demoOpenAIClient [Message.new_user "hi"] (some available_tools)
     else (request_body demoOpenAIClient [Message.new_user "hi"]
        (some available_tools)).getField "options").getField "temperature" =
      Json.num 0 ∧
    (if demoOpenAIClient.api_key.isSome then
      request_body demoOpenAIClient [Message.new_user "hi"] (some available_tools)
     else (request_body demoOpenAIClient [Message.new_user "hi"]
        (some available_tools)).getField "options").getField "seed" =
      Json.num 42 ∧
    (if demoOpenAIClient.api_key.isSome then
      request_body demoOpenAIClient [Message.new_user "hi"] (some available_tools)
     else (request_body demoOpenAIClient [Message.new_user "hi"]
        (some available_tools)).getField "options").getField "top_p" =
      Json.num (if demoOpenAIClient.api_key.isSome then 1 else 1 / 10) ∧
    (if demoOpenAIClient.api_key.isSome then
      (request_body demoOpenAIClient [Message.new_user "hi"]
        (some available_tools)).getField "max_tokens"
     else ((request_body demoOpenAIClient [Message.new_user "hi"]
        (some available_tools)).getField "options").getField "num_predict") =
      Json.num (if (some available_tools).isSome then 1024 else 100) ∧
    (100 : ℚ) < 1024 :=
  C1_chat_completion_fixed_sampling_policy demoOpenAIClient
    [Message.new_user "hi"] (some available_tools) (by decide)

/-- Counterexample for C9.  With the OpenAI credential absent, constructing
a client for `gpt-4` fails with the descriptive missing-variable error of
`get_required_var`, not with the `InvalidProvider` variant's text (that
variant is never constructed anywhere in llm.rs). -/
theorem C9_invalid_provider_counterexample :
    LLMClient.new emptyEnv "gpt-4" = Except.error
      "Missing required variable WAVS_ENV_OPENAI_API_KEY: environment variable not found" ∧
    "Missing required variable WAVS_ENV_OPENAI_API_KEY: environment variable not found"
      ≠ LLMError.display LLMError.InvalidProvider := by
  constructor
  · with_unfolding_all decide
  · decide

/-- C9 amended.  Construction fails with the `EmptyModelName` error for
every model string blank after trimming; when the hosted provider's
credential is absent it fails with the descriptive
"Missing required variable WAVS_ENV_OPENAI_API_KEY" text (not the
`InvalidProvider` variant); otherwise it succeeds with the resolved
endpoint and credential. -/
theorem C9_construction_errors_amended :
    (∀ (env : Env) (model : String), (rustTrim model).isEmpty = true →
      LLMClient.new env model =
        Except.error (LLMError.display LLMError.EmptyModelName)) ∧
    (∀ env : Env, env "WAVS_ENV_OPENAI_API_KEY" = none →
      LLMClient.new env "gpt-4" = Except.error
        "Missing required variable WAVS_ENV_OPENAI_API_KEY: environment variable not found" ∧
      LLMClient.new env "gpt-4" ≠
        Except.error (LLMError.display LLMError.InvalidProvider)) ∧
    (∀ (env : Env) (key : String), env "WAVS_ENV_OPENAI_API_KEY" = some key →
      LLMClient.new env "gpt-4" = Except.ok
        ⟨"gpt-4", "https://api.openai.com/v1/chat/completions", some key⟩) ∧
    (∀ (env : Env) (model : String), (rustTrim model).isEmpty = false →
      model ≠ "gpt-3.5-turbo" → model ≠ "gpt-4" →
      (LLMClient.new env model).isOk = true) := by
  have hgpt4 : (rustTrim "gpt-4").isEmpty = false := by with_unfolding_all decide
  refine ⟨?_, ?_, ?_, ?_⟩
  · intro env model hm
    simp [LLMClient.new, hm, LLMError.display]
  · intro env he
    constructor
    · simp [LLMClient.new, hgpt4, get_required_var, he, Except.map]
    · simp [LLMClient.new, hgpt4, get_required_var, he, Except.map, LLMError.display]
  · intro env key hk
    simp [LLMClient.new, hgpt4, get_required_var, hk, Except.map]
  · intro env model hm h1 h2
    simp [LLMClient.new, hm, h1, h2, Except.isOk, Except.toBool]

/-- Witness for C9 amended: the missing-credential branch at the empty
environment. -/
theorem C9_construction_errors_amended_witness :
    LLMClient.new emptyEnv "gpt-4" = Except.error
      "Missing required variable WAVS_ENV_OPENAI_API_KEY: environment variable not found" ∧
    LLMClient.new emptyEnv "gpt-4" ≠
      Except.error (LLMError.display LLMError.InvalidProvider) :=
  C9_construction_errors_amended.2.1 emptyEnv rfl

/-- C10.  Provider selection is an exact string match on the model name:
exactly `"gpt-3.5-turbo"` and `"gpt-4"` resolve to the hosted OpenAI
endpoint and require the `WAVS_ENV_OPENAI_API_KEY` credential; every other
non-blank model string resolves, without error and with no credential, to
the local `{WAVS_ENV_OLLAMA_API_URL | http://localhost:11434}/api/chat`
endpoint. -/
theorem C10_provider_selection :
    (∀ (env : Env) (key : String), env "WAVS_ENV_OPENAI_API_KEY" = some key →
      LLMClient.new env "gpt-3.5-turbo" = Except.ok
        ⟨"gpt-3.5-turbo", "https://api.openai.com/v1/chat/completions", some key⟩ ∧
      LLMClient.new env "gpt-4" = Except.ok
        ⟨"gpt-4", "https://api.openai.com/v1/chat/completions", some key⟩) ∧
    (∀ env : Env, env "WAVS_ENV_OPENAI_API_KEY" = none →
      LLMClient.new env "gpt-4" = Except.error
        "Missing required variable WAVS_ENV_OPENAI_API_KEY: environment variable not found" ∧
      LLMClient.new env "gpt-3.5-turbo" = Except.error
        "Missing required variable WAVS_ENV_OPENAI_API_KEY: environment variable not found") ∧
    (∀ (env : Env) (model : String), (rustTrim model).isEmpty = false →
      model ≠ "gpt-3.5-turbo" → model ≠ "gpt-4" →
      LLMClient.new env model = Except.ok
        ⟨model, ((env "WAVS_ENV_OLLAMA_API_URL").getD "http://localhost:11434")
          ++ "/api/chat", none⟩) := by
  have hgpt4 : (rustTrim "gpt-4").isEmpty = false := by with_unfolding_all decide
  have hgpt35 : (rustTrim "gpt-3.5-turbo").isEmpty = false := by
    with_unfolding_all decide
  refine ⟨?_, ?_, ?_⟩
  · intro env key hk
    constructor
    · simp [LLMClient.new, hgpt35, get_required_var, hk, Except.map]
    · simp [LLMClient.new, hgpt4, get_required_var, hk, Except.map]
  · intro env he
    constructor
    · simp [LLMClient.new, hgpt4, get_required_var, he, Except.map]
    · simp [LLMClient.new, hgpt35, get_required_var, he, Except.map]
  · intro env model hm h1 h2
    simp [LLMClient.new, hm, h1, h2]

/-- Witness for C10: a misspelled hosted model name silently resolves to
the local provider. -/
theorem C10_provider_selection_witness :
    LLMClient.new emptyEnv "gpt-5" = Except.ok
      ⟨"gpt-5", ((emptyEnv "WAVS_ENV_OLLAMA_API_URL").getD "http://localhost:11434")
        ++ "/api/chat", none⟩ :=
  C10_provider_selection.2.2 emptyEnv "gpt-5"
    (by with_unfolding_all decide) (by decide) (by decide)

/-- C5.  Properties of the spec-modelled hosted Anthropic-compatible
adapter (the adapter's code is missing from src/): the request is a POST to
`{base}/v1/messages` whose body carries the model, a single
restructured user turn, the hoisted system text and the sampling fields;
on the demo conversation the system turn is hoisted and the user/assistant
turns are concatenated in order; the response parser decodes
`content[0].text` and fails when the content array is empty. -/
theorem C5_anthropic_adapter_spec_model :
    (∀ (model base : String) (mt t tp : ℚ) (messages : List Message),
      (anthropic_build_request model base mt t tp messages).method = "POST" ∧
      (anthropic_build_request model base mt t tp messages).url =
        base ++ "/v1/messages" ∧
      (anthropic_build_request model base mt t tp messages).body.getField
          "model" = Json.str model ∧
      (anthropic_build_request model base mt t tp messages).body.getField
          "messages" = Json.arr [Json.obj
            [("role", Json.str "user"),
             ("content", Json.str (anthropic_user_text messages))]] ∧
      (anthropic_build_request model base mt t tp messages).body.getField
          "system" = Json.str (anthropic_system_text messages) ∧
      (anthropic_build_request model base mt t tp messages).body.getField
          "max_tokens" = Json.num mt ∧
      (anthropic_build_request model base mt t tp messages).body.getField
          "temperature" = Json.num t ∧
      (anthropic_build_request model base mt t tp messages).body.getField
          "top_p" = Json.num tp) ∧
    anthropic_system_text anthroDemoMsgs = "sys prompt" ∧
    anthropic_user_text anthroDemoMsgs =
      "first question\nfirst answer\nsecond question" ∧
    anthropic_parse_response okAnthropicBody = Except.ok "hi" ∧
    anthropic_parse_response emptyContentBody =
      Except.error "No content returned" := by
  refine ⟨?_, by with_unfolding_all decide, by with_unfolding_all decide,
    by with_unfolding_all decide, by with_unfolding_all decide⟩
  intro model base mt t tp messages
  exact ⟨rfl, rfl, rfl, rfl, rfl, rfl, rfl, rfl⟩
